/-
  Verification of the BulamuChainBot RAG core.

  Shallow embedding of the retrieval, classification and answer-assembly
  logic of backend/ai_engine (vector_store.py, knowledge_base.py,
  rag_engine.py, intelligent_chatbot.py).

  Modelling conventions:
  * Python strings are Lean `String`; `str.lower()` is `strLower`,
    the `in` substring test is `strContainsSub`, `sep.join(xs)` is `pyJoin`.
  * Python floats (similarity scores, response times) are modelled as `ℚ`.
  * `list.sort` / `sorted` (Timsort, stable) is modelled by the stable
    insertion sort `stableSort`; a stable sort is uniquely determined by
    its comparator, so the two agree element for element.
  * Runtime state that lives outside the repository (the Chroma vector
    index contents, the optional LLM, the wall clock) is passed in as
    explicit parameters of an environment record.
  * Fallible Python code is modelled with `Except String`.
-/
import Mathlib

namespace Bulamu

/-! ## String utilities (Python `in`, `str.join`) -/

/-- `charListBeginsWith p l` : the char list `l` starts with `p`. -/
def charListBeginsWith : List Char → List Char → Bool
  | [], _ => true
  | _ :: _, [] => false
  | p :: ps, c :: cs => p == c && charListBeginsWith ps cs

/-- `charListHasSub pat l` : `pat` occurs as a contiguous sublist of `l`. -/
def charListHasSub (pat : List Char) : List Char → Bool
  | [] => pat.isEmpty
  | c :: cs => charListBeginsWith pat (c :: cs) || charListHasSub pat cs

/-- Python `needle in hay` on strings. -/
def strContainsSub (hay needle : String) : Bool :=
  charListHasSub needle.toList hay.toList

/-- Python `s.lower()`. (Core's `String.toLower` recurses over byte
positions and does not reduce inside the kernel, so the character list
is mapped directly; the two agree character for character.) -/
def strLower (s : String) : String :=
  ⟨s.data.map Char.toLower⟩

/-- Python `s.split(sep)` for a one-character separator: splits on every
occurrence, keeping empty pieces, never returning an empty list. -/
def pySplitChar (sep : Char) (s : String) : List String :=
  (s.data.foldr
    (fun c acc =>
      if c = sep then [] :: acc
      else
        match acc with
        | [] => [[c]]
        | g :: gs => (c :: g) :: gs)
    [[]]).map (fun cs => ⟨cs⟩)

/-- Python `sep.join(parts)`. -/
def pyJoin (sep : String) : List String → String
  | [] => ""
  | [s] => s
  | s :: t :: rest => s ++ sep ++ pyJoin sep (t :: rest)

/-! ## Stable sort (model of Python `sorted` / `list.sort`) -/

/-- Insert `x` after every element `y` of an already sorted list with
`le y x`; this is exactly where a stable sort places a new element. -/
def insertStable (le : α → α → Bool) (x : α) : List α → List α
  | [] => [x]
  | y :: ys => if le y x then y :: insertStable le x ys else x :: y :: ys

/-- Stable insertion sort, processing the input left to right. -/
def stableSort (le : α → α → Bool) (l : List α) : List α :=
  l.foldl (fun acc x => insertStable le x acc) []

theorem mem_insertStable (le : α → α → Bool) (x : α) :
    ∀ l a, a ∈ insertStable le x l → a = x ∨ a ∈ l := by
  intro l
  induction l with
  | nil => intro a ha; simp [insertStable] at ha; exact Or.inl ha
  | cons y ys ih =>
      intro a ha
      by_cases h : le y x = true
      · simp [insertStable, h] at ha
        rcases ha with ha | ha
        · exact Or.inr (by simp [ha])
        · rcases ih a ha with h1 | h1
          · exact Or.inl h1
          · exact Or.inr (by simp [h1])
      · simp [insertStable, h] at ha
        rcases ha with ha | ha | ha
        · exact Or.inl ha
        · exact Or.inr (by simp [ha])
        · exact Or.inr (by simp [ha])

theorem pairwise_insertStable (le : α → α → Bool)
    (htrans : ∀ a b c, le a b = true → le b c = true → le a c = true)
    (htot : ∀ a b, le a b = false → le b a = true) :
    ∀ l x, l.Pairwise (fun a b => le a b = true) →
      (insertStable le x l).Pairwise (fun a b => le a b = true) := by
  intro l
  induction l with
  | nil => intro x _; simp [insertStable]
  | cons y ys ih =>
      intro x hp
      rcases List.pairwise_cons.mp hp with ⟨hy, hys⟩
      by_cases h : le y x = true
      · rw [insertStable, if_pos h]
        refine List.pairwise_cons.mpr ⟨?_, ih x hys⟩
        intro a ha
        rcases mem_insertStable le x _ a ha with rfl | ha'
        · exact h
        · exact hy a ha'
      · rw [insertStable, if_neg h]
        refine List.pairwise_cons.mpr ⟨?_, hp⟩
        intro a ha
        rcases List.mem_cons.mp ha with h1 | ha'
        · rw [h1]; exact htot y x (by simpa using h)
        · exact htrans x y a (htot y x (by simpa using h)) (hy a ha')

theorem pairwise_stableSort (le : α → α → Bool)
    (htrans : ∀ a b c, le a b = true → le b c = true → le a c = true)
    (htot : ∀ a b, le a b = false → le b a = true) (l : List α) :
    (stableSort le l).Pairwise (fun a b => le a b = true) := by
  suffices h : ∀ acc, acc.Pairwise (fun a b => le a b = true) →
      (l.foldl (fun acc x => insertStable le x acc) acc).Pairwise
        (fun a b => le a b = true) by
    exact h [] (by simp)
  induction l with
  | nil => intro acc hacc; simpa using hacc
  | cons x xs ih =>
      intro acc hacc
      exact ih _ (pairwise_insertStable le htrans htot acc x hacc)

/-! ## Vector store (backend/ai_engine/vector_store.py) -/

/-- A retrievable chunk (`langchain.schema.Document`): its text plus the
only metadata key the retrieval code reads, `metadata['category']`
(`none` models an absent key). -/
structure Document where
  page_content : String
  category : Option String
deriving DecidableEq

/-- `VectorStoreManager.semantic_search_with_score` (vector_store.py:348).
`chromaResults` is the raw `(document, score)` list produced by
`chroma_store.similarity_search_with_score(query, k)`; `none` models the
`self.chroma_store` being absent or the call raising (both return `[]`).
The function keeps exactly the pairs with `score >= score_threshold`. -/
def semantic_search_with_score (chromaResults : Option (List (Document × ℚ)))
    (score_threshold : ℚ) : List (Document × ℚ) :=
  match chromaResults with
  | some results => results.filter (fun p => score_threshold ≤ p.2)
  | none => []

/-- The `[{category}] ` metadata tag prepended to a chunk inside
`get_relevant_context` (vector_store.py:418-423); Python's truthiness test
`if doc.metadata.get('category')` skips both a missing and an empty
category. -/
def render_part (d : Document) : String :=
  (match d.category with
   | some c => if c = "" then "" else "[" ++ c ++ "] "
   | none => "") ++ d.page_content

/-- The greedy accumulation loop of `get_relevant_context`
(vector_store.py:410-424): walk the sorted documents, count
`len(content) // 4` per chunk, and `break` as soon as adding the next
chunk's estimate would exceed `max_tokens`. Returns the included
documents, whole and in order. -/
def context_docs (max_tokens : Nat) : List Document → Nat → List Document
  | [], _ => []
  | d :: rest, current_tokens =>
      let content_tokens := d.page_content.length / 4
      if max_tokens < current_tokens + content_tokens then []
      else d :: context_docs max_tokens rest (current_tokens + content_tokens)

/-- Ascending stable sort by score: `results.sort(key=lambda x: x[1])`
(vector_store.py:404). -/
def sort_by_score (l : List (Document × ℚ)) : List (Document × ℚ) :=
  stableSort (fun a b => decide (a.2 ≤ b.2)) l

/-- `VectorStoreManager.get_relevant_context` (vector_store.py:377-430):
scored search at the given threshold, ascending sort by score, greedy
accumulation of whole chunks under the `len // 4` token estimate, parts
joined with a blank line. -/
def get_relevant_context (chromaResults : Option (List (Document × ℚ)))
    (max_tokens : Nat) (relevance_threshold : ℚ) : String :=
  let results := semantic_search_with_score chromaResults relevance_threshold
  if results.isEmpty then ""
  else
    pyJoin "\n\n"
      (((context_docs max_tokens ((sort_by_score results).map Prod.fst) 0).map
        render_part))

/-- Total of the per-chunk token estimates the loop accumulates
(`current_tokens` after the loop). -/
def content_tokens_total (l : List Document) : Nat :=
  (l.map (fun d => d.page_content.length / 4)).sum

/-- Rough token estimate applied to a whole string, as the spec's
"estimated token count (its length divided by 4)". -/
def estimated_tokens (s : String) : Nat := s.length / 4

/-! ## Medical knowledge base (backend/ai_engine/knowledge_base.py) -/

/-- `MedicalKnowledgeBase._load_symptoms_mapping` (knowledge_base.py:237-249),
in the dict's insertion order. -/
def symptoms_mapping : List (String × List String) :=
  [("fever", ["Malaria", "Typhoid", "Pneumonia", "UTI", "Dengue"]),
   ("headache", ["Malaria", "Typhoid", "Hypertension", "Migraine", "Meningitis"]),
   ("cough", ["Tuberculosis", "Pneumonia", "Asthma", "Common cold", "COVID-19"]),
   ("abdominal_pain", ["Typhoid", "Appendicitis", "Gastritis", "UTI", "Food poisoning"]),
   ("diarrhea", ["Cholera", "Food poisoning", "Dysentery", "IBS", "Gastroenteritis"]),
   ("chest_pain", ["Heart attack", "Pneumonia", "Asthma", "GERD", "Anxiety"]),
   ("shortness_of_breath", ["Asthma", "Pneumonia", "Heart failure", "Anemia", "COVID-19"]),
   ("weight_loss", ["Tuberculosis", "Diabetes", "Cancer", "HIV/AIDS", "Hyperthyroidism"]),
   ("fatigue", ["Malaria", "Anemia", "Depression", "Diabetes", "Thyroid disorders"])]

/-- One `possible_conditions[condition] += 1` step
(knowledge_base.py:458-460): a first touch appends the condition at the
end of the (insertion-ordered) dict, later touches increment in place. -/
def add_point : List (String × Nat) → String → List (String × Nat)
  | [], c => [(c, 1)]
  | (k, v) :: rest, c =>
      if k = c then (k, v + 1) :: rest else (k, v) :: add_point rest c

/-- The tally loop of `get_symptoms_analysis` (knowledge_base.py:453-460):
for each input symptom and each mapping key matching it (key contained in
the lowered symptom, or any `_`-separated component word contained in
it), one point per condition listed under that key. -/
def tally_symptoms (symptoms : List String) : List (String × Nat) :=
  symptoms.foldl
    (fun acc symptom =>
      let symptom_lower := strLower symptom
      symptoms_mapping.foldl
        (fun acc2 kv =>
          if strContainsSub symptom_lower kv.1 ||
              (pySplitChar '_' kv.1).any (fun w => strContainsSub symptom_lower w) then
            kv.2.foldl add_point acc2
          else acc2)
        acc)
    []

/-- `MedicalKnowledgeBase._get_symptom_recommendation`
(knowledge_base.py:480-494). -/
def get_symptom_recommendation (symptoms : List String) : String :=
  let emergency_keywords :=
    ["chest pain", "difficulty breathing", "unconscious",
     "severe bleeding", "seizure", "stroke"]
  if symptoms.any (fun s => emergency_keywords.any
      (fun kw => strContainsSub (strLower s) kw)) then
    "EMERGENCY: Seek immediate medical attention"
  else if 3 ≤ symptoms.length then
    "Multiple symptoms detected. Consult healthcare provider soon."
  else
    "Monitor symptoms. Consult healthcare provider if they worsen or persist."

/-- Result of `MedicalKnowledgeBase._check_emergency_symptoms`. -/
structure EmergencyCheckResult where
  is_emergency : Bool
  emergency_symptoms : List String
  action : String
deriving DecidableEq

/-- `MedicalKnowledgeBase._check_emergency_symptoms`
(knowledge_base.py:496-514). -/
def check_emergency_symptoms (symptoms : List String) : EmergencyCheckResult :=
  let emergency_symptoms :=
    ["chest pain", "difficulty breathing", "severe bleeding",
     "unconscious", "seizure", "stroke symptoms", "severe headache",
     "high fever", "severe abdominal pain"]
  let detected := symptoms.foldl
    (fun acc s => acc ++ emergency_symptoms.filter
      (fun e => strContainsSub (strLower s) e)) []
  { is_emergency := 0 < detected.length
    emergency_symptoms := detected
    action := if 0 < detected.length then
        "Call emergency services immediately"
      else "Continue monitoring" }

/-- Result of `MedicalKnowledgeBase.get_symptoms_analysis`. -/
structure SymptomAnalysis where
  possible_conditions : List (String × Nat)
  recommendation : String
  emergency_check : EmergencyCheckResult
deriving DecidableEq

/-- Descending stable sort by tally:
`sorted(possible_conditions.items(), key=lambda x: x[1], reverse=True)`
(knowledge_base.py:463-467); Python's `reverse=True` keeps equal
elements in insertion order. -/
def sort_by_tally (l : List (String × Nat)) : List (String × Nat) :=
  stableSort (fun a b => decide (b.2 ≤ a.2)) l

/-- `MedicalKnowledgeBase.get_symptoms_analysis` (knowledge_base.py:441-473). -/
def get_symptoms_analysis (symptoms : List String) : SymptomAnalysis :=
  { possible_conditions := (sort_by_tally (tally_symptoms symptoms)).take 5
    recommendation := get_symptom_recommendation symptoms
    emergency_check := check_emergency_symptoms symptoms }

/-- A structured condition entry as consumed by the fallback generator:
the three dict keys `_generate_fallback_response` reads, each `none` when
the key is absent. Python stores `symptoms` either as a list or as a
plain string (the `isinstance(symptoms, list)` branch), hence the sum. -/
structure Condition where
  condition : Option String
  symptoms : Option (Sum (List String) String)
  treatment : Option String
deriving DecidableEq

/-- The static corpus as `search_knowledge` scans it. The JSON dump of an
item (`json.dumps(condition)` etc.) and the Python `str()` rendering of a
matched `{name: item}` entry are opaque text attributes here: no claim
depends on their exact spelling, only on where they are searched or
emitted. -/
structure Corpus where
  /-- `(structured condition, json.dumps(condition))` for every condition
  of every category of `self.medical_conditions`. -/
  conditionItems : List (Condition × String)
  /-- `(protocol_name, json.dumps(protocol), str({protocol_name: protocol}))`
  for `self.emergency_protocols`. -/
  protocolItems : List (String × String × String)
  /-- `(med_name, json.dumps(med_info), str({med_name: med_info}))`
  for `self.medication_guide['common_medications']`. -/
  medicationItems : List (String × String × String)

/-- The result dict of `MedicalKnowledgeBase.search_knowledge`
(knowledge_base.py:555-561): exactly these five buckets, in this order.
`emergency_info`, `preventive_care`, `medications` and `cultural_info`
hold rendered entries as opaque strings. -/
structure SearchResults where
  conditions : List Condition
  emergency_info : List String
  preventive_care : List String
  medications : List String
  cultural_info : List String
deriving DecidableEq

/-- `MedicalKnowledgeBase.search_knowledge` (knowledge_base.py:543-583):
case-insensitive substring match of the query against each condition's
JSON dump, each protocol's name or dump, and each medication's name or
dump. Nothing is ever appended to `preventive_care` or `cultural_info`. -/
def search_knowledge (corpus : Corpus) (query : String)
    (_language : String := "english") : SearchResults :=
  let query_lower := strLower query
  { conditions :=
      (corpus.conditionItems.filter
        (fun it => strContainsSub (strLower it.2) query_lower)).map Prod.fst
    emergency_info :=
      (corpus.protocolItems.filter
        (fun it => strContainsSub it.1 query_lower ||
          strContainsSub (strLower it.2.1) query_lower)).map (fun it => it.2.2)
    preventive_care := []
    medications :=
      (corpus.medicationItems.filter
        (fun it => strContainsSub it.1 query_lower ||
          strContainsSub (strLower it.2.1) query_lower)).map (fun it => it.2.2)
    cultural_info := [] }

/-! ## RAG engine (backend/ai_engine/rag_engine.py) -/

/-- The question analysis dict built by `RAGEngine._analyze_question`. -/
structure QuestionAnalysis where
  qtype : String
  urgency : String
  categories : List String
  requires_disclaimer : Bool
deriving DecidableEq

/-- `RAGEngine._analyze_question` (rag_engine.py:271-304): an `elif`
chain over case-insensitive keyword containment decides `type` and
`urgency`; a second, independent `elif` chain appends one topical
category. -/
def analyze_question (question : String) : QuestionAnalysis :=
  let ql := strLower question
  let hit := fun (ws : List String) => ws.any (fun w => strContainsSub ql w)
  let base : QuestionAnalysis :=
    if hit ["emergency", "urgent", "chest pain", "can\x27t breathe", "unconscious"] then
      { qtype := "emergency", urgency := "high", categories := [],
        requires_disclaimer := true }
    else if hit ["symptoms", "feel", "hurts", "pain"] then
      { qtype := "symptoms", urgency := "normal", categories := [],
        requires_disclaimer := true }
    else if hit ["treatment", "cure", "medicine", "medication"] then
      { qtype := "treatment", urgency := "normal", categories := [],
        requires_disclaimer := true }
    else if hit ["prevent", "avoid", "stop"] then
      { qtype := "prevention", urgency := "normal", categories := [],
        requires_disclaimer := true }
    else if hit ["pregnancy", "pregnant", "baby"] then
      { qtype := "maternal_child", urgency := "normal",
        categories := ["maternal_child_health"], requires_disclaimer := true }
    else
      { qtype := "general", urgency := "normal", categories := [],
        requires_disclaimer := true }
  if hit ["malaria", "fever", "typhoid"] then
    { base with categories := base.categories ++ ["infectious_diseases"] }
  else if hit ["blood pressure", "diabetes", "heart"] then
    { base with categories := base.categories ++ ["non_communicable_diseases"] }
  else if hit ["depression", "anxiety", "mental"] then
    { base with categories := base.categories ++ ["mental_health"] }
  else base

/-- `RAGEngine._is_symptom_question` (rag_engine.py:306-313). -/
def is_symptom_question (question : String) : Bool :=
  let ql := strLower question
  ["symptoms", "feel", "feeling", "hurts", "pain", "ache",
   "experiencing", "having", "suffering", "problem with"].any
    (fun w => strContainsSub ql w)

/-- `RAGEngine._extract_symptoms` (rag_engine.py:315-331): every
vocabulary entry found in the lowered question, in vocabulary order. -/
def extract_symptoms (question : String) : List String :=
  let ql := strLower question
  ["fever", "headache", "cough", "pain", "nausea", "vomiting",
   "diarrhea", "constipation", "fatigue", "dizziness", "rash",
   "shortness of breath", "chest pain", "abdominal pain"].filter
    (fun s => strContainsSub ql s)

/-- Fixed emergency branch of `_generate_fallback_response`
(rag_engine.py:397-400). -/
def emergency_fallback_message : String :=
  "This appears to be an emergency situation. Please seek immediate medical attention by calling emergency services or going to the nearest hospital immediately. Do not delay treatment for serious symptoms."

/-- Intro line of the conditions section (rag_engine.py:408). -/
def conditions_intro_line : String :=
  "Based on your question, here\x27s some relevant medical information:"

/-- Generic sentence used when nothing matched (rag_engine.py:424-428). -/
def no_match_message : String :=
  "I understand you have a medical question. While I can provide general health information, I recommend consulting with a qualified healthcare provider for personalized medical advice."

/-- Educational disclaimer appended to every fallback response
(rag_engine.py:430-435). -/
def educational_disclaimer : String :=
  "\n\n*Please note: This information is for educational purposes only and should not replace professional medical advice. Always consult with a healthcare provider for proper diagnosis and treatment.*"

/-- The lines contributed by one matched condition
(rag_engine.py:409-417): header only when the `condition` key exists;
inside that block, the first three symptoms when `symptoms` is a list,
and the treatment when present. -/
def condition_parts (c : Condition) : List String :=
  match c.condition with
  | none => []
  | some name =>
      ("\n**" ++ name ++ ":**") ::
      ((match c.symptoms with
        | some (Sum.inl l) => ["Symptoms: " ++ pyJoin ", " (l.take 3)]
        | _ => []) ++
       (match c.treatment with
        | some t => ["Treatment: " ++ t]
        | none => []))

/-- The non-emergency branch of `_generate_fallback_response`
(rag_engine.py:402-437): knowledge-base synthesis followed by the
educational disclaimer, joined with spaces. -/
def fallback_synthesis (kb_results : SearchResults) : String :=
  let parts1 : List String :=
    if kb_results.conditions.isEmpty then []
    else conditions_intro_line ::
      (kb_results.conditions.take 2).foldr
        (fun c acc => condition_parts c ++ acc) []
  let parts2 : List String :=
    parts1 ++
      (if kb_results.emergency_info.isEmpty then []
       else "\n**Emergency Information:**" :: kb_results.emergency_info.take 1)
  let parts3 : List String :=
    if parts2.isEmpty then [no_match_message] else parts2
  pyJoin " " (parts3 ++ [educational_disclaimer])

/-- `RAGEngine._generate_fallback_response` (rag_engine.py:388-437). -/
def generate_fallback_response (question_type : String)
    (kb_results : SearchResults) : String :=
  if question_type = "emergency" then emergency_fallback_message
  else fallback_synthesis kb_results

/-- The `metadata` sub-dict of a response. Keys a code path does not set
are modelled by their Python-falsy lookups: `false`, `[]`, `none`. -/
structure RespMetadata where
  categories : List String
  sources_available : Bool
  rag_enhanced : Bool
  no_context_found : Bool
  recommendation : Option String
deriving DecidableEq

/-- A response dict of `ask_question` and its helpers. The wall-clock
`timestamp` key is not modelled; absent keys are `none`. -/
structure Response where
  success : Bool
  answer : String
  question_type : Option String
  urgency : Option String
  error : Option String
  metadata : Option RespMetadata
  sources : Option (List Document)
deriving DecidableEq

/-- Emergency banner prepended by `_post_process_response`
(rag_engine.py:449-452). -/
def emergency_banner : String :=
  "⚠️ **EMERGENCY ALERT**: If this is a medical emergency, call emergency services immediately or go to the nearest hospital."

/-- Medical disclaimer appended by `_post_process_response`
(rag_engine.py:455-459). -/
def medical_disclaimer : String :=
  "\n\n---\n*Medical Disclaimer: This information is for educational purposes only and should not replace professional medical advice. Always consult with a qualified healthcare provider for proper diagnosis and treatment.*"

/-- `RAGEngine._post_process_response` (rag_engine.py:439-488). -/
def post_process_response (response : String) (qa : QuestionAnalysis)
    (include_sources : Bool) (relevant_docs : List Document) : Response :=
  let r1 := if qa.urgency = "high" then
      emergency_banner ++ "\n\n" ++ response
    else response
  let r2 := if qa.requires_disclaimer then r1 ++ medical_disclaimer else r1
  { success := true
    answer := r2
    question_type := some qa.qtype
    urgency := some qa.urgency
    error := none
    metadata := some
      { categories := qa.categories
        sources_available := 0 < relevant_docs.length
        rag_enhanced := true
        no_context_found := false
        recommendation := none }
    sources :=
      if include_sources && !relevant_docs.isEmpty then
        some (relevant_docs.take 3)
      else none }

/-- `RAGEngine._handle_no_context` (rag_engine.py:490-506). -/
def handle_no_context : Response :=
  { success := true
    answer := "I understand you have a medical question, but I don\x27t have specific information about this topic in my knowledge base. I recommend consulting with a qualified healthcare provider who can give you personalized medical advice based on your specific situation.\n\nIf this is an emergency, please seek immediate medical attention."
    question_type := some "general"
    urgency := some "normal"
    error := none
    metadata := some
      { categories := []
        sources_available := false
        rag_enhanced := false
        no_context_found := true
        recommendation := some "consult_healthcare_provider" }
    sources := none }

/-- The `except Exception` handler of `ask_question`
(rag_engine.py:217-224): apologetic answer, `success=false`, raw error
string retained. -/
def error_response (e : String) : Response :=
  { success := false
    answer := "I apologize, but I encountered an error processing your question. Please try again or consult a healthcare provider directly."
    question_type := none
    urgency := none
    error := some e
    metadata := none
    sources := none }

/-- `self.metrics` of `RAGEngine` (rag_engine.py:62-67). -/
structure Metrics where
  total_queries : Nat
  successful_retrievals : Nat
  failed_retrievals : Nat
  avg_response_time : ℚ
deriving DecidableEq

/-- `RAGEngine._update_metrics` (rag_engine.py:508-516); called after
`total_queries` has already been incremented. -/
def update_metrics (st : Metrics) (response_time : ℚ) : Metrics :=
  { st with avg_response_time :=
      (st.avg_response_time * ((st.total_queries : ℚ) - 1) + response_time) /
        (st.total_queries : ℚ) }

/-- `success_rate` as computed by `RAGEngine.get_performance_metrics`
(rag_engine.py:540-547). -/
def success_rate (st : Metrics) : ℚ :=
  if 0 < st.total_queries then
    ((st.successful_retrievals : ℚ) / (st.total_queries : ℚ)) * 100
  else 0

/-- The dict built by `RAGEngine._retrieve_context`
(rag_engine.py:257-263). It always carries these five keys, so as a
Python dict it is always truthy. -/
structure ContextResults where
  semantic_documents : List Document
  scored_documents : List (Document × ℚ)
  knowledge_base_results : SearchResults
  symptom_analysis : Option SymptomAnalysis
  formatted_context : String
deriving DecidableEq

/-- Runtime state outside the repository that `ask_question` interacts
with: the vector index contents, the optional generation model, an
injected orchestration fault, and the measured response time. -/
structure RagEnv where
  /-- `True` models an exception inside `_retrieve_context`'s own `try`,
  which makes it return the empty dict `{}` (rag_engine.py:267-269). -/
  retrieveExc : Bool
  /-- Output of `similarity_search(question, k=5, ...)` (rag_engine.py:233). -/
  semanticDocs : List Document
  /-- Raw Chroma output behind `semantic_search_with_score(question, k=8, 0.1)`
  (rag_engine.py:240-244). -/
  chroma8 : Option (List (Document × ℚ))
  /-- Raw Chroma output behind the `k=10` scored search inside
  `get_relevant_context(question, max_tokens=2000)` (rag_engine.py:262). -/
  chroma10 : Option (List (Document × ℚ))
  /-- The static knowledge corpus. -/
  corpus : Corpus
  /-- `none`: no LLM configured; `some (.error e)`: the LLM call raised
  (both fall back, rag_engine.py:343-386); `some (.ok a)`: generated text. -/
  llm : Option (Except String String)
  /-- `some e` models an unexpected exception during post-processing,
  the representative orchestration fault caught at the top of
  `ask_question` (rag_engine.py:217). -/
  postExc : Option String
  /-- Wall-clock duration of the call, fed to `_update_metrics`. -/
  responseTime : ℚ

/-- `RAGEngine._retrieve_context` (rag_engine.py:226-269): `none` is the
empty dict `{}` returned when its internal `try` catches; otherwise the
five-key dict, however empty each entry may be. -/
def retrieve_context (env : RagEnv) (question : String) :
    Option ContextResults :=
  if env.retrieveExc then none
  else some
    { semantic_documents := env.semanticDocs
      scored_documents := semantic_search_with_score env.chroma8 (1 / 10 : ℚ)
      knowledge_base_results := search_knowledge env.corpus question
      symptom_analysis :=
        if is_symptom_question question then
          match extract_symptoms question with
          | [] => none
          | s :: rest => some (get_symptoms_analysis (s :: rest))
        else none
      formatted_context := get_relevant_context env.chroma10 2000 (1 / 10 : ℚ) }

/-- `RAGEngine._generate_response` (rag_engine.py:333-386): without an
LLM, or when the LLM call raises, the deterministic fallback is used;
otherwise the generated text is the answer. -/
def generate_response (env : RagEnv) (ctx : ContextResults)
    (question_type : String) : String :=
  match env.llm with
  | none => generate_fallback_response question_type ctx.knowledge_base_results
  | some (Except.error _) =>
      generate_fallback_response question_type ctx.knowledge_base_results
  | some (Except.ok a) => a

/-- The `try` body of `RAGEngine.ask_question` (rag_engine.py:179-215),
with the metrics mutations it performs before a fault can strike, and the
fault surfaced as `Except.error`. `relevant_context.get('documents', [])`
(rag_engine.py:208) is `[]` because `_retrieve_context` never sets a
`'documents'` key. -/
def ask_question_body (env : RagEnv) (question : String)
    (include_sources : Bool) (st : Metrics) : Metrics × Except String Response :=
  let st1 := { st with total_queries := st.total_queries + 1 }
  match retrieve_context env question with
  | none =>
      ({ st1 with failed_retrievals := st1.failed_retrievals + 1 },
       Except.ok handle_no_context)
  | some ctx =>
      let st2 := { st1 with successful_retrievals := st1.successful_retrievals + 1 }
      let qa := analyze_question question
      let answer := generate_response env ctx qa.qtype
      match env.postExc with
      | some e => (st2, Except.error e)
      | none =>
          (update_metrics st2 env.responseTime,
           Except.ok (post_process_response answer qa include_sources []))

/-- `RAGEngine.ask_question` (rag_engine.py:158-224): the body wrapped in
the top-level `except Exception` handler. -/
def ask_question (env : RagEnv) (question : String)
    (include_sources : Bool) (st : Metrics) : Metrics × Response :=
  match ask_question_body env question include_sources st with
  | (st', Except.ok r) => (st', r)
  | (st', Except.error e) => (st', error_response e)

/-! ## Intelligent chatbot (backend/ai_engine/intelligent_chatbot.py) -/

/-- The `emergency_keywords` list of
`IntelligentMedicalChatbot._check_emergency_intent`
(intelligent_chatbot.py:331-344). -/
def chatbot_emergency_keywords : List String :=
  ["emergency", "urgent", "chest pain", "can\x27t breathe", "unconscious",
   "severe bleeding", "heart attack", "stroke", "choking", "seizure",
   "overdose", "severe allergic reaction", "suicide",
   "mangu", "amaanyi", "omutima gukuba", "ssisobola kussa mukka",
   "tafaayo", "omusaayi oguyitiridde", "okuzimba",
   "dharura", "haraka", "maumivu ya kifua", "siwezi kupumua",
   "amezimia", "damu nyingi", "shambulizi la moyo"]

/-- Python attribute access `lst.split()` on a `list` value: `list` has
no `split` attribute, so evaluation raises `AttributeError`
unconditionally. -/
def list_attr_split (_l : List String) : Except String (List String) :=
  Except.error "AttributeError: \x27list\x27 object has no attribute \x27split\x27"

/-- The result dict `_check_emergency_intent` would build if its
`confidence` expression could evaluate. -/
structure EmergencyIntent where
  is_emergency : Bool
  keywords : List String
  confidence : ℚ
deriving DecidableEq

/-- `IntelligentMedicalChatbot._check_emergency_intent`
(intelligent_chatbot.py:329-353): the keyword scan succeeds, but the
returned dict's `confidence` value divides by
`len(emergency_keywords.split())` — `.split()` called on the keyword
*list* — so building the return value always raises. -/
def check_emergency_intent (message : String) :
    Except String EmergencyIntent :=
  let message_lower := strLower message
  let detected := chatbot_emergency_keywords.filter
    (fun kw => strContainsSub message_lower kw)
  match list_attr_split chatbot_emergency_keywords with
  | Except.error e => Except.error e
  | Except.ok ws =>
      Except.ok
        { is_emergency := 0 < detected.length
          keywords := detected
          confidence := (detected.length : ℚ) / (ws.length : ℚ) }

/-! ## Helper lemmas -/

theorem context_docs_tokens_le (max_tokens : Nat) :
    ∀ (docs : List Document) (current : Nat), current ≤ max_tokens →
      current + content_tokens_total (context_docs max_tokens docs current) ≤
        max_tokens := by
  intro docs
  induction docs with
  | nil => intro current h; simpa [context_docs, content_tokens_total] using h
  | cons d rest ih =>
      intro current h
      by_cases hb : max_tokens < current + d.page_content.length / 4
      · simpa [context_docs, hb, content_tokens_total] using h
      · have h2 : current + d.page_content.length / 4 ≤ max_tokens :=
          Nat.le_of_not_lt hb
        have hrec := ih (current + d.page_content.length / 4) h2
        simp only [context_docs]
        rw [if_neg hb]
        simp only [content_tokens_total, List.map_cons, List.sum_cons] at hrec ⊢
        omega

theorem pyJoin_ends_with (sep d : String) :
    ∀ ps : List String, ∃ pre : List Char,
      (pyJoin sep (ps ++ [d])).data = pre ++ d.data := by
  intro ps
  induction ps with
  | nil => exact ⟨[], by simp [pyJoin]⟩
  | cons s ps' ih =>
      cases ps' with
      | nil =>
          refine ⟨(s ++ sep).data, ?_⟩
          show (s ++ sep ++ d).data = (s ++ sep).data ++ d.data
          rw [String.data_append]
      | cons t ps'' =>
          rcases ih with ⟨pre', hpre⟩
          refine ⟨(s ++ sep).data ++ pre', ?_⟩
          show (s ++ sep ++ pyJoin sep ((t :: ps'') ++ [d])).data =
            (s ++ sep).data ++ pre' ++ d.data
          rw [String.data_append, hpre, List.append_assoc]

theorem success_rate_bounds (st : Metrics)
    (h : st.successful_retrievals ≤ st.total_queries) :
    0 ≤ success_rate st ∧ success_rate st ≤ 100 := by
  unfold success_rate
  by_cases ht : 0 < st.total_queries
  · rw [if_pos ht]
    have htq : (0 : ℚ) < (st.total_queries : ℚ) := by exact_mod_cast ht
    have hdiv : ((st.successful_retrievals : ℚ) / (st.total_queries : ℚ)) ≤ 1 := by
      rw [div_le_one htq]
      exact_mod_cast h
    have hdiv0 : (0 : ℚ) ≤ (st.successful_retrievals : ℚ) / (st.total_queries : ℚ) :=
      div_nonneg (by positivity) (le_of_lt htq)
    constructor
    · positivity
    · calc ((st.successful_retrievals : ℚ) / (st.total_queries : ℚ)) * 100
          ≤ 1 * 100 := by
            exact mul_le_mul_of_nonneg_right hdiv (by norm_num)
        _ = 100 := by norm_num
  · rw [if_neg ht]; norm_num

theorem fallback_synthesis_take (kb : SearchResults) :
    fallback_synthesis kb =
      fallback_synthesis
        { kb with conditions := kb.conditions.take 2,
                  emergency_info := kb.emergency_info.take 1 } := by
  rcases kb with ⟨conds, em, p, m, cu⟩
  rcases conds with _ | ⟨c1, _ | ⟨c2, crest⟩⟩ <;>
    rcases em with _ | ⟨e1, erest⟩ <;> rfl

theorem fallback_synthesis_ends_with (kb : SearchResults) :
    ∃ pre : List Char,
      (fallback_synthesis kb).data = pre ++ educational_disclaimer.data := by
  unfold fallback_synthesis
  exact pyJoin_ends_with " " educational_disclaimer _

theorem sort_by_score_pairwise (l : List (Document × ℚ)) :
    (sort_by_score l).Pairwise (fun a b => a.2 ≤ b.2) := by
  have h := pairwise_stableSort (fun a b : Document × ℚ => decide (a.2 ≤ b.2))
    (fun a b c hab hbc =>
      decide_eq_true (le_trans (of_decide_eq_true hab) (of_decide_eq_true hbc)))
    (fun a b hab =>
      decide_eq_true (le_of_lt (lt_of_not_le (of_decide_eq_false hab)))) l
  exact h.imp (fun hd => of_decide_eq_true hd)

theorem sort_by_tally_pairwise (l : List (String × Nat)) :
    (sort_by_tally l).Pairwise (fun a b => b.2 ≤ a.2) := by
  have h := pairwise_stableSort (fun a b : String × Nat => decide (b.2 ≤ a.2))
    (fun a b c hab hbc =>
      decide_eq_true (le_trans (of_decide_eq_true hbc) (of_decide_eq_true hab)))
    (fun a b hab =>
      decide_eq_true (le_of_lt (lt_of_not_le (of_decide_eq_false hab)))) l
  exact h.imp (fun hd => of_decide_eq_true hd)

/-! ## Claims -/

/-- Claim C1, counterexample. The claim says the string returned by
`get_relevant_context` always has `length / 4 ≤ max_tokens`. With a
single stored chunk of content `"aaaa"` (estimate `4 / 4 = 1` token)
tagged `category = "cardiology"` and a budget of `max_tokens = 1`, the
chunk is included, but the returned string is `"[cardiology] aaaa"`
(17 characters, estimate 4 tokens), exceeding the budget: the category
prefix is not counted by the loop. -/
theorem claim_C1_counterexample :
    estimated_tokens
      (get_relevant_context
        (some [(⟨"aaaa", some "cardiology"⟩, 0)]) 1 0) = 4 ∧ 1 < 4 := by
  constructor
  · rfl
  · decide

/-- Claim C1, amended: `get_relevant_context` sorts the thresholded
results ascending by score and greedily accumulates whole chunks; the
budget bound holds for the *accumulated per-chunk estimate*
(`sum of len(content) / 4 over included chunks ≤ max_tokens`), not for
the returned string, whose category prefixes and separators are not
counted. -/
theorem claim_C1 :
    ∀ (chromaResults : Option (List (Document × ℚ)))
      (max_tokens : Nat) (relevance_threshold : ℚ),
      content_tokens_total
        (context_docs max_tokens
          ((sort_by_score
            (semantic_search_with_score chromaResults relevance_threshold)).map
              Prod.fst) 0) ≤ max_tokens ∧
      (sort_by_score
        (semantic_search_with_score chromaResults relevance_threshold)).Pairwise
          (fun a b => a.2 ≤ b.2) := by
  intro chromaResults max_tokens relevance_threshold
  constructor
  · have h := context_docs_tokens_le max_tokens
      ((sort_by_score
        (semantic_search_with_score chromaResults relevance_threshold)).map
          Prod.fst) 0 (Nat.zero_le _)
    simpa using h
  · exact sort_by_score_pairwise _

/-- Concrete environment: vector index empty, static corpus empty, no
LLM, no injected fault. -/
def env0 : RagEnv :=
  { retrieveExc := false, semanticDocs := [], chroma8 := some [],
    chroma10 := some [], corpus := ⟨[], [], []⟩, llm := none,
    postExc := none, responseTime := 0 }

/-- Fresh metrics, as initialised by `RAGEngine.__init__`. -/
def metrics0 : Metrics := ⟨0, 0, 0, 0⟩

/-- Same environment with an exception injected into
`_retrieve_context`. -/
def env_exc : RagEnv := { env0 with retrieveExc := true }

/-- Claim C2, counterexample. For the question `"xyzzy"` in an
environment where every retrieval strategy returns empty results (and no
exception occurs), `_retrieve_context` still returns its five-key dict —
a *truthy* value — so `ask_question` does not take the no-context branch:
the response has `success = true` but `metadata.no_context_found = false`,
contradicting the claim that it would be `true`. -/
theorem claim_C2_counterexample :
    retrieve_context env0 "xyzzy" =
      some ⟨[], [], ⟨[], [], [], [], []⟩, none, ""⟩ ∧
    (ask_question env0 "xyzzy" true metrics0).2.success = true ∧
    (ask_question env0 "xyzzy" true metrics0).2.metadata.map
      RespMetadata.no_context_found = some false := by
  exact ⟨by decide, rfl, rfl⟩

/-- Claim C2, amended: the no-context response (`success = true`,
`metadata.no_context_found = true`, non-empty apology recommending
professional consultation) is produced exactly when `_retrieve_context`
raises internally and returns the empty dict; when all strategies merely
return empty results the context dict is still non-empty (truthy) and
generation proceeds. -/
theorem claim_C2 :
    ∀ (env : RagEnv) (q : String) (inc : Bool) (st : Metrics),
      ((ask_question env q inc st).2.metadata.map
          RespMetadata.no_context_found = some true ↔ env.retrieveExc = true) ∧
      (env.retrieveExc = true →
        (ask_question env q inc st).2 = handle_no_context) ∧
      (handle_no_context.success = true ∧ handle_no_context.answer ≠ "") := by
  intro env q inc st
  by_cases hexc : env.retrieveExc = true
  · refine ⟨?_, fun _ => ?_, by decide⟩
    · simp [ask_question, ask_question_body, retrieve_context, hexc,
        handle_no_context]
    · simp [ask_question, ask_question_body, retrieve_context, hexc]
  · refine ⟨?_, fun h => absurd h hexc, by decide⟩
    simp only [ask_question, ask_question_body, retrieve_context, hexc]
    cases hpe : env.postExc with
    | none => simp [hexc, hpe, post_process_response, error_response]
    | some e => simp [hexc, hpe, post_process_response, error_response]

/-- Witness for the amended claim C2 at a concrete faulted environment. -/
theorem claim_C2_witness :
    env_exc.retrieveExc = true ∧
      (ask_question env_exc "xyzzy" true metrics0).2 = handle_no_context :=
  ⟨rfl, (claim_C2 env_exc "xyzzy" true metrics0).2.1 rfl⟩

/-- Claim C3: `ask_question` never propagates an exception — its body
either completes with a response that is returned unchanged, or raises,
in which case the top-level handler returns `success = false`, the fixed
apologetic answer, and the raw error string in the `error` field. -/
theorem claim_C3 :
    ∀ (env : RagEnv) (q : String) (inc : Bool) (st : Metrics),
      (∃ r, (ask_question_body env q inc st).2 = Except.ok r ∧
        (ask_question env q inc st).2 = r) ∨
      (∃ e, (ask_question_body env q inc st).2 = Except.error e ∧
        (ask_question env q inc st).2 = error_response e ∧
        (error_response e).success = false ∧
        (error_response e).error = some e) := by
  intro env q inc st
  rcases hb : ask_question_body env q inc st with ⟨st', res⟩
  cases res with
  | ok r =>
      left
      exact ⟨r, rfl, by simp [ask_question, hb]⟩
  | error e =>
      right
      exact ⟨e, rfl, by simp [ask_question, hb], rfl, rfl⟩

/-- Claim C4: any question containing `"chest pain"` (case-insensitively)
is classified `type = emergency`, `urgency = high`; the emergency keyword
check is the first rule of the `elif` chain and pre-empts all later type
checks. -/
theorem claim_C4 :
    ∀ q : String, strContainsSub (strLower q) "chest pain" = true →
      (analyze_question q).qtype = "emergency" ∧
      (analyze_question q).urgency = "high" := by
  intro q h
  have hhit : (["emergency", "urgent", "chest pain", "can\x27t breathe",
      "unconscious"].any (fun w => strContainsSub (strLower q) w)) = true := by
    apply List.any_eq_true.mpr
    exact ⟨"chest pain", by simp, h⟩
  constructor <;>
    · simp only [analyze_question, hhit, if_true]
      split
      · rfl
      split
      · rfl
      split <;> rfl

/-- Witness for claim C4 on a concrete mixed-case question. -/
theorem claim_C4_witness :
    strContainsSub (strLower "Sudden CHEST PAIN while resting") "chest pain" =
        true ∧
      (analyze_question "Sudden CHEST PAIN while resting").qtype =
        "emergency" ∧
      (analyze_question "Sudden CHEST PAIN while resting").urgency = "high" :=
  ⟨by decide,
   (claim_C4 "Sudden CHEST PAIN while resting" (by decide)).1,
   (claim_C4 "Sudden CHEST PAIN while resting" (by decide)).2⟩

/-- Claim C5: every `(document, score)` pair returned by
`semantic_search_with_score` has `score ≥ score_threshold`. -/
theorem claim_C5 :
    ∀ (chromaResults : Option (List (Document × ℚ))) (t : ℚ)
      (d : Document) (s : ℚ),
      (d, s) ∈ semantic_search_with_score chromaResults t → t ≤ s := by
  intro chromaResults t d s hmem
  cases chromaResults with
  | none => simp [semantic_search_with_score] at hmem
  | some l =>
      have := (List.mem_filter.mp hmem).2
      exact of_decide_eq_true this

/-- Witness for claim C5 on a concrete two-element store output. -/
theorem claim_C5_witness :
    ((⟨"x", none⟩ : Document), (1 : ℚ)) ∈
        semantic_search_with_score
          (some [((⟨"x", none⟩ : Document), (1 : ℚ)),
                 ((⟨"y", none⟩ : Document), (-1 : ℚ))]) 0 ∧
      (0 : ℚ) ≤ 1 :=
  ⟨by decide,
   claim_C5 (some [((⟨"x", none⟩ : Document), (1 : ℚ)),
                   ((⟨"y", none⟩ : Document), (-1 : ℚ))]) 0
     ⟨"x", none⟩ 1 (by decide)⟩

/-- Claim C6: `get_symptoms_analysis` returns at most five
`(condition, match_count)` pairs, sorted by count descending; on
`["fever", "headache", "fatigue"]` the tally is Malaria 3 (fever,
headache and fatigue all map to it), Typhoid 2, then the remaining
single-symptom matches in first-touch order, so Malaria is ranked first,
at or above every condition matching fewer of the three symptoms. -/
theorem claim_C6 :
    (∀ symptoms : List String,
      (get_symptoms_analysis symptoms).possible_conditions.length ≤ 5 ∧
      (get_symptoms_analysis symptoms).possible_conditions.Pairwise
        (fun a b => b.2 ≤ a.2)) ∧
    (get_symptoms_analysis ["fever", "headache", "fatigue"]).possible_conditions
      = [("Malaria", 3), ("Typhoid", 2), ("Pneumonia", 1), ("UTI", 1),
         ("Dengue", 1)] := by
  constructor
  · intro symptoms
    constructor
    · simp only [get_symptoms_analysis]
      rw [List.length_take]
      exact min_le_left _ _
    · simp only [get_symptoms_analysis]
      exact (sort_by_tally_pairwise _).sublist (List.take_sublist _ _)
  · decide

/-- Claim C7: with no generation backend (or a failed generation), an
emergency-classified question gets the fixed escalation message; any
other type gets a synthesis that uses at most the first 2 matched
conditions and at most 1 emergency-protocol entry, falls back to the
generic consult-a-provider sentence when nothing matched, and always
ends with the fixed educational disclaimer. -/
theorem claim_C7 :
    ∀ (question_type : String) (kb : SearchResults),
      generate_fallback_response "emergency" kb = emergency_fallback_message ∧
      (question_type ≠ "emergency" →
        (∃ pre : List Char,
          (generate_fallback_response question_type kb).data =
            pre ++ educational_disclaimer.data) ∧
        generate_fallback_response question_type kb =
          generate_fallback_response question_type
            { kb with conditions := kb.conditions.take 2,
                      emergency_info := kb.emergency_info.take 1 } ∧
        (kb.conditions = [] → kb.emergency_info = [] →
          generate_fallback_response question_type kb =
            no_match_message ++ " " ++ educational_disclaimer)) := by
  intro question_type kb
  refine ⟨rfl, fun hq => ?_⟩
  have hne : generate_fallback_response question_type kb =
      fallback_synthesis kb := by
    simp [generate_fallback_response, hq]
  have hne' : generate_fallback_response question_type
      { kb with conditions := kb.conditions.take 2,
                emergency_info := kb.emergency_info.take 1 } =
      fallback_synthesis
        { kb with conditions := kb.conditions.take 2,
                  emergency_info := kb.emergency_info.take 1 } := by
    simp [generate_fallback_response, hq]
  refine ⟨?_, ?_, ?_⟩
  · rw [hne]; exact fallback_synthesis_ends_with kb
  · rw [hne, hne']; exact fallback_synthesis_take kb
  · intro h1 h2
    rw [hne]
    rcases kb with ⟨conds, em, p, m, cu⟩
    simp only at h1 h2
    subst h1; subst h2
    rfl

/-- Witness for claim C7: a non-emergency type with an empty knowledge
base yields exactly the generic sentence plus the disclaimer. -/
theorem claim_C7_witness :
    ("general" : String) ≠ "emergency" ∧
      generate_fallback_response "general" ⟨[], [], [], [], []⟩ =
        no_match_message ++ " " ++ educational_disclaimer :=
  ⟨by decide,
   ((claim_C7 "general" ⟨[], [], [], [], []⟩).2 (by decide)).2.2 rfl rfl⟩

/-- Claim C8: the `confidence` expression of `_check_emergency_intent`
calls `.split()` on the keyword *list*, so evaluation raises
`AttributeError` for every input message — the function never returns a
result normally. -/
theorem claim_C8 :
    ∀ message : String,
      check_emergency_intent message =
        Except.error
          "AttributeError: \x27list\x27 object has no attribute \x27split\x27" := by
  intro message
  rfl

/-- Claim C9: `search_knowledge` always returns the five fixed buckets
(`conditions`, `emergency_info`, `preventive_care`, `medications`,
`cultural_info` — the fields of `SearchResults`, mirroring the result
dict literal), and the `preventive_care` and `cultural_info` buckets are
empty for every query: no code path appends to them. -/
theorem claim_C9 :
    ∀ (corpus : Corpus) (query lang : String),
      (search_knowledge corpus query lang).preventive_care = [] ∧
      (search_knowledge corpus query lang).cultural_info = [] := by
  intro corpus query lang
  exact ⟨rfl, rfl⟩

/-- Claim C10: each `ask_question` call increments `total_queries` by
exactly one and exactly one of `successful_retrievals` /
`failed_retrievals` (hence at most one), so
`successful + failed ≤ total` is preserved and the reported
`success_rate` stays within `[0, 100]`. -/
theorem claim_C10 :
    ∀ (env : RagEnv) (q : String) (inc : Bool) (st : Metrics),
      st.successful_retrievals + st.failed_retrievals ≤ st.total_queries →
      ((ask_question env q inc st).1.total_queries = st.total_queries + 1) ∧
      (((ask_question env q inc st).1.successful_retrievals =
          st.successful_retrievals + 1 ∧
        (ask_question env q inc st).1.failed_retrievals =
          st.failed_retrievals) ∨
       ((ask_question env q inc st).1.successful_retrievals =
          st.successful_retrievals ∧
        (ask_question env q inc st).1.failed_retrievals =
          st.failed_retrievals + 1)) ∧
      ((ask_question env q inc st).1.successful_retrievals +
          (ask_question env q inc st).1.failed_retrievals ≤
        (ask_question env q inc st).1.total_queries) ∧
      0 ≤ success_rate (ask_question env q inc st).1 ∧
      success_rate (ask_question env q inc st).1 ≤ 100 := by
  intro env q inc st hinv
  have hst : ∀ st1 : Metrics,
      st1.successful_retrievals ≤ st1.total_queries →
      0 ≤ success_rate st1 ∧ success_rate st1 ≤ 100 :=
    fun st1 h => success_rate_bounds st1 h
  by_cases hexc : env.retrieveExc = true
  · have heq : (ask_question env q inc st).1 =
        { st with total_queries := st.total_queries + 1,
                  failed_retrievals := st.failed_retrievals + 1 } := by
      simp [ask_question, ask_question_body, retrieve_context, hexc]
    rw [heq]
    refine ⟨rfl, Or.inr ⟨rfl, rfl⟩, by simp; omega, ?_⟩
    exact hst _ (by simp; omega)
  · cases hpe : env.postExc with
    | some e =>
        have heq : (ask_question env q inc st).1 =
            { st with total_queries := st.total_queries + 1,
                      successful_retrievals := st.successful_retrievals + 1 } := by
          simp [ask_question, ask_question_body, retrieve_context, hexc, hpe]
        rw [heq]
        refine ⟨rfl, Or.inl ⟨rfl, rfl⟩, by simp; omega, ?_⟩
        exact hst _ (by simp; omega)
    | none =>
        have heq : (ask_question env q inc st).1 =
            update_metrics
              { st with total_queries := st.total_queries + 1,
                        successful_retrievals := st.successful_retrievals + 1 }
              env.responseTime := by
          simp [ask_question, ask_question_body, retrieve_context, hexc, hpe]
        rw [heq]
        refine ⟨rfl, Or.inl ⟨rfl, rfl⟩, by simp [update_metrics]; omega, ?_⟩
        exact hst _ (by simp [update_metrics]; omega)

/-- Witness for claim C10 on a fresh metrics record. -/
theorem claim_C10_witness :
    metrics0.successful_retrievals + metrics0.failed_retrievals ≤
        metrics0.total_queries ∧
      ((ask_question env0 "malaria" true metrics0).1.total_queries =
          metrics0.total_queries + 1) ∧
      (((ask_question env0 "malaria" true metrics0).1.successful_retrievals =
          metrics0.successful_retrievals + 1 ∧
        (ask_question env0 "malaria" true metrics0).1.failed_retrievals =
          metrics0.failed_retrievals) ∨
       ((ask_question env0 "malaria" true metrics0).1.successful_retrievals =
          metrics0.successful_retrievals ∧
        (ask_question env0 "malaria" true metrics0).1.failed_retrievals =
          metrics0.failed_retrievals + 1)) ∧
      ((ask_question env0 "malaria" true metrics0).1.successful_retrievals +
          (ask_question env0 "malaria" true metrics0).1.failed_retrievals ≤
        (ask_question env0 "malaria" true metrics0).1.total_queries) ∧
      0 ≤ success_rate (ask_question env0 "malaria" true metrics0).1 ∧
      success_rate (ask_question env0 "malaria" true metrics0).1 ≤ 100 :=
  ⟨by decide, claim_C10 env0 "malaria" true metrics0 (by decide)⟩

end Bulamu
